import Mathlib

/-!
Verification development for the local replica store with vector-clock
causality (remerge storage), the sync15 encrypted BSO envelope, and the
fxa-client session-token migrator.

The Rust sources embedded here:
  - components/remerge/src/storage/db.rs   (RemergeDb and its SQL statements)
  - sync15-adapter/src/bso_record.rs       (BsoRecord, EncryptedPayload)
  - components/fxa-client/src/migrator.rs  (migrate_from_session_token)

The SQLite tables are modelled as lists of rows; every SQL statement of
db.rs is translated into an explicit Lean function over that state, and
rusqlite transactions (commit on success, rollback when the guard is
dropped on an error path) are modelled by the `transact` wrapper.

Code of the repository that the covered sources call but that is not part
of the covered sources (vclock.rs, meta.rs, schema info translation, the
key bundle, serde and base64, the fxa collaborators) is modelled from the
specification; each such definition carries a doc comment starting with
`Modelled from the spec:`.
-/

/-- Equality on `Except` results is decidable when it is on both sides. -/
instance exceptDecEq {ε α : Type} [DecidableEq ε] [DecidableEq α] : DecidableEq (Except ε α) :=
  fun a b =>
    match a, b with
    | .error e1, .error e2 =>
      if h : e1 = e2 then isTrue (by rw [h]) else isFalse (fun hh => by cases hh; exact h rfl)
    | .error _, .ok _ => isFalse (fun hh => Except.noConfusion hh)
    | .ok _, .error _ => isFalse (fun hh => Except.noConfusion hh)
    | .ok a1, .ok a2 =>
      if h : a1 = a2 then isTrue (by rw [h]) else isFalse (fun hh => by cases hh; exact h rfl)

/-! ## Vector clock (modelled from the spec, section 4.1) -/

/-- Modelled from the spec: a vector clock is an unordered mapping from
client id to a monotonic counter with zero entries suppressed
(vclock.rs is not part of the covered sources). -/
structure VClock where
  entries : List (String × Nat)
deriving DecidableEq, Repr

/-- Modelled from the spec: look up the counter of a client id, zero when
the id has no entry. -/
def VClock.get (vc : VClock) (id : String) : Nat :=
  match vc.entries.find? (fun p => p.1 == id) with
  | some p => p.2
  | none => 0

/-- Modelled from the spec: `new(id, counter)` builds a single-entry vclock. -/
def VClock.new (id : String) (counter : Nat) : VClock :=
  ⟨[(id, counter)]⟩

/-- Modelled from the spec: `apply(id, counter)` returns a vclock identical
to the input except that the entry of `id` is set to `counter`.  The call
site in db.rs (`get_bumped_vclock`) uses it as a total function. -/
def VClock.apply (vc : VClock) (id : String) (counter : Nat) : VClock :=
  ⟨(id, counter) :: vc.entries.filter (fun p => !(p.1 == id))⟩

/-- Modelled from the spec: the pointwise order on vclocks, a ≤ b iff every
component of a is at most the matching component of b. -/
def VClock.le (a b : VClock) : Bool :=
  a.entries.all (fun p => a.get p.1 ≤ b.get p.1)

/-- Result of comparing two vector clocks, per the spec. -/
inductive VClockOrdering where
  | Equal
  | Less
  | Greater
  | Concurrent
deriving DecidableEq, Repr

/-- Modelled from the spec: `compare(a, b)` with the usual component-wise
rule; equal when both directions hold, concurrent when neither does. -/
def VClock.compare (a b : VClock) : VClockOrdering :=
  match a.le b, b.le a with
  | true, true => .Equal
  | true, false => .Less
  | false, true => .Greater
  | false, false => .Concurrent

/-! ## Remerge storage data model -/

/-- A native record presented by the application.  The schema translation
(native to local and back) is not part of the covered sources; it is
modelled from the spec as the identity translation, with the record id
carried explicitly. -/
structure NativeRecord where
  id : String
  data : String
deriving DecidableEq, Repr

/-- The content of a `record_data` column: JSON text of a local record, or
the literal empty object written for tombstones.  Modelled as an option
with `none` standing for the tombstone text. -/
abbrev RecordData := Option NativeRecord

/-- A row of the `rec_local` table (the local overlay). -/
structure LocalRow where
  guid : String
  record_data : RecordData
  vector_clock : VClock
  last_writer_id : String
  local_modified_ms : Int
  is_deleted : Bool
  sync_status : Int
  remerge_schema_version : Option String
deriving DecidableEq, Repr

/-- A row of the `rec_mirror` table (the last known server state).  The
`is_overridden` column is modelled as `Option Int` so that SQL NULL
(`none`) and arbitrary integers are representable, since nothing in the
covered sources constrains it to 0 or 1. -/
structure MirrorRow where
  guid : String
  record_data : RecordData
  vector_clock : VClock
  last_writer_id : String
  server_modified_ms : Int
  is_overridden : Option Int
deriving DecidableEq, Repr

/-- The persistent database state: the two record tables plus the
CHANGE_COUNTER meta value (an i64, modelled as Int). -/
structure DbState where
  rec_local : List LocalRow
  rec_mirror : List MirrorRow
  changeCounter : Int
deriving DecidableEq, Repr

/-- The open store handle: its client id and the schema version string
that db.rs writes via `self.info.local.version.to_string()`. -/
structure RemergeDb where
  client_id : String
  schema_version : String
deriving DecidableEq, Repr

/-- Errors surfaced by the storage layer.  `panicked` models a Rust panic
(`assert!` or `expect`), which unwinds through the transaction guard; it is
distinct from every error value returned through `Result`. -/
inductive RemergeError where
  | idNotUnique
  | duplicate
  | noSuchRecord (guid : String)
  | queryReturnedNoRows
  | constraintViolation
  | rowValueMisused
  | dbCorruption
  | panicked (msg : String)
deriving DecidableEq, Repr

/-- Largest i64 value. -/
def i64Max : Int := 9223372036854775807

/-- SyncStatus::Synced as stored (modelled from the spec: synced = 0). -/
def syncStatusSynced : Int := 0

/-- SyncStatus::Changed as stored (modelled from the spec: changed = 1). -/
def syncStatusChanged : Int := 1

/-- SyncStatus::New as stored (modelled from the spec: new = 2). -/
def syncStatusNew : Int := 2

/-- The rusqlite transaction discipline of db.rs: the body runs against the
state; on success the transaction commits and the new state is kept, on an
error the transaction guard is dropped and the database rolls back to the
state at the start of the call. -/
def transact {α : Type} (s : DbState) (body : DbState → Except RemergeError (α × DbState)) :
    Except RemergeError α × DbState :=
  match body s with
  | .error e => (.error e, s)
  | .ok (a, s1) => (.ok a, s1)

/-- The `exists` query of db.rs (lines 74-86): a row is visible through
`rec_local` when `is_deleted = 0` and through `rec_mirror` when
`is_overridden IS NOT 1` (which is true for NULL and for every value other
than 1). -/
def recExists (s : DbState) (id : String) : Bool :=
  s.rec_local.any (fun r => r.guid == id && !r.is_deleted) ||
  s.rec_mirror.any (fun r => r.guid == id && !(r.is_overridden == some 1))

/-- The `get_vclock` query of db.rs (lines 157-167): `query_row_named`
returns the first row of the UNION ALL (local rows first), and fails with
QueryReturnedNoRows when there is none. -/
def getVClock (s : DbState) (id : String) : Except RemergeError VClock :=
  match s.rec_local.find? (fun r => r.guid == id && !r.is_deleted) with
  | some r => .ok r.vector_clock
  | none =>
    match s.rec_mirror.find? (fun r => r.guid == id && !(r.is_overridden == some 1)) with
    | some r => .ok r.vector_clock
    | none => .error .queryReturnedNoRows

/-- Embeds `counter_bump` of db.rs (lines 139-155): read CHANGE_COUNTER, panic via
`assert!` when it is negative, increment, write back, and panic via
`.expect` when the incremented value does not fit (i64 overflow on the
increment, surfaced by the `Counter::try_from`).  Note that the code
panics on both corruption conditions instead of returning `DbCorruption`;
its own FIXME comment records that an error return was intended. -/
def counterBump (s : DbState) : Except RemergeError (Nat × DbState) :=
  if s.changeCounter < 0 then .error (.panicked "negative global change counter")
  else if s.changeCounter = i64Max then .error (.panicked "i64 overflow")
  else .ok ((s.changeCounter + 1).toNat, { s with changeCounter := s.changeCounter + 1 })

/-- Embeds `dupe_exists` of db.rs (lines 353-358): the source is a placeholder
that always returns `Ok(false)`. -/
def dupeExists (_record : RecordData) : Except RemergeError Bool :=
  .ok false

/-- An INSERT into `rec_local`: `guid` is the primary key (modelled from
the spec, section 6), so inserting a guid that is already present fails
with a constraint violation. -/
def insertLocalRow (s : DbState) (row : LocalRow) : Except RemergeError DbState :=
  if s.rec_local.any (fun r => r.guid == row.guid) then .error .constraintViolation
  else .ok { s with rec_local := s.rec_local ++ [row] }

/-- Embeds `RemergeDb::create` (db.rs lines 88-137): translate the native record
(modelled as the identity, with the id taken from the record), then in one
transaction check id uniqueness, check for dupes, bump the counter, build
a fresh single-entry vclock and insert the overlay row with
`sync_status = new`, `is_deleted = 0`. -/
def RemergeDb.create (db : RemergeDb) (native : NativeRecord) (now : Int) (s : DbState) :
    Except RemergeError String × DbState :=
  let id := native.id
  let record : RecordData := some native
  transact s (fun s0 =>
    if recExists s0 id then .error .idNotUnique
    else
      match dupeExists record with
      | .error e => .error e
      | .ok true => .error .duplicate
      | .ok false =>
        match counterBump s0 with
        | .error e => .error e
        | .ok (ctr, s1) =>
          let vclock := VClock.new db.client_id ctr
          match insertLocalRow s1
              { guid := id
                record_data := record
                vector_clock := vclock
                last_writer_id := db.client_id
                local_modified_ms := now
                is_deleted := false
                sync_status := syncStatusNew
                remerge_schema_version := some db.schema_version } with
          | .error e => .error e
          | .ok s2 => .ok (id, s2))

/-- Embeds `get_bumped_vclock` (db.rs lines 293-298): read the visible vclock,
bump the counter, and apply the client id with the fresh counter. -/
def getBumpedVClock (db : RemergeDb) (s : DbState) (id : String) :
    Except RemergeError (VClock × DbState) :=
  match getVClock s id with
  | .error e => .error e
  | .ok vc =>
    match counterBump s with
    | .error e => .error e
    | .ok (ctr, s1) => .ok (vc.apply db.client_id ctr, s1)

/-- The first UPDATE of `delete_by_id` (db.rs lines 181-197): mark every
`rec_local` row of the guid deleted, clear its record data to the empty
object, store the bumped vclock and this client as last writer. -/
def updateLocalAsTombstone (s : DbState) (id : String) (now : Int) (vclock : VClock)
    (ownId : String) : DbState :=
  { s with rec_local := s.rec_local.map (fun r =>
      if r.guid == id then
        { r with local_modified_ms := now
                 sync_status := syncStatusChanged
                 is_deleted := true
                 record_data := none
                 vector_clock := vclock
                 last_writer_id := ownId }
      else r) }

/-- The per-row effect of the mirror override UPDATE: set
`is_overridden = 1` on the rows of the guid, leave the rest alone. -/
def overriddenMirrorRow (id : String) (r : MirrorRow) : MirrorRow :=
  if r.guid == id then { r with is_overridden := some 1 } else r

/-- Embeds `mark_mirror_overridden` (db.rs lines 285-291) and the identical inline
UPDATE of `delete_by_id` (lines 200-203): set `is_overridden = 1` on every
mirror row of the guid. -/
def markMirrorOverridden (s : DbState) (id : String) : DbState :=
  { s with rec_mirror := s.rec_mirror.map (overriddenMirrorRow id) }

/-- The tombstone INSERT of `delete_by_id` (db.rs lines 207-219).  The SQL
reads

  INSERT OR IGNORE INTO rec_local (guid, local_modified_ms, ...)
  SELECT (guid, :now_ms, 1, :changed, ..., :schema_ver) FROM rec_mirror
  WHERE guid = :guid

The parenthesized list after SELECT is a single row-value result column,
not eight result columns; SQLite rejects the statement when it is prepared
(row value misused, and a 1-versus-8 column-count mismatch), so this
`execute_named` always returns an error, independent of the data. -/
def tombstoneInsertStmt (_s : DbState) (_id : String) : Except RemergeError DbState :=
  .error .rowValueMisused

/-- Embeds `RemergeDb::delete_by_id` (db.rs lines 169-222): return false without
writing when the guid is not visible; otherwise bump the vclock, turn any
local row into a tombstone, mark the mirror overridden, and run the
(malformed) tombstone insert, whose failure rolls the transaction back. -/
def RemergeDb.deleteById (db : RemergeDb) (id : String) (now : Int) (s : DbState) :
    Except RemergeError Bool × DbState :=
  transact s (fun s0 =>
    if !recExists s0 id then .ok (false, s0)
    else
      match getBumpedVClock db s0 id with
      | .error e => .error e
      | .ok (vclock, s1) =>
        let s2 := updateLocalAsTombstone s1 id now vclock db.client_id
        let s3 := markMirrorOverridden s2 id
        match tombstoneInsertStmt s3 id with
        | .error e => .error e
        | .ok s4 => .ok (true, s4))

/-- Modelled from the spec: `local_to_native` of the schema info, which is
not part of the covered sources; modelled as the total identity
translation, with the tombstone text translated to an empty record. -/
def local_to_native (r : RecordData) : Except RemergeError NativeRecord :=
  match r with
  | some n => .ok n
  | none => .ok { id := "", data := "" }

/-- Embeds `RemergeDb::get_by_id` (db.rs lines 224-236): `try_query_row` over the
UNION ALL (local rows with `is_deleted = 0` first, then mirror rows with
`is_overridden = 0` — note the equality test, unlike `exists`), translated
local to native; no row yields `Ok(None)`. -/
def RemergeDb.getById (s : DbState) (id : String) : Except RemergeError (Option NativeRecord) :=
  let row : Option RecordData :=
    match s.rec_local.find? (fun r => r.guid == id && !r.is_deleted) with
    | some r => some r.record_data
    | none =>
      (s.rec_mirror.find? (fun r => r.guid == id && r.is_overridden == some 0)).map
        (fun r => r.record_data)
  match row with
  | none => .ok none
  | some d =>
    match local_to_native d with
    | .error e => .error e
    | .ok n => .ok (some n)

/-- Embeds `clone_mirror_to_overlay` (db.rs lines 271-283): copy the mirror row of
the guid into `rec_local` with `local_modified_ms = 0`, `is_deleted = 0`,
`sync_status = 0`; the statement names no `remerge_schema_version`, so the
cloned row stores NULL there. -/
def cloneRow (m : MirrorRow) : LocalRow :=
  { guid := m.guid
    record_data := m.record_data
    vector_clock := m.vector_clock
    last_writer_id := m.last_writer_id
    local_modified_ms := 0
    is_deleted := false
    sync_status := 0
    remerge_schema_version := none }

/-- Embeds `ensure_local_overlay_exists` (db.rs lines 251-269): keep the state
when any `rec_local` row of the guid exists (deleted or not); otherwise
clone the mirror row, and fail with NoSuchRecord when the clone changed
no rows because there is no mirror row either. -/
def ensureLocalOverlayExists (s : DbState) (guid : String) : Except RemergeError DbState :=
  if s.rec_local.any (fun r => r.guid == guid) then .ok s
  else
    match s.rec_mirror.find? (fun r => r.guid == guid) with
    | none => .error (.noSuchRecord guid)
    | some m => .ok { s with rec_local := s.rec_local ++ [cloneRow m] }

/-- The UPDATE of `update_record` (db.rs lines 315-337): store the new
record data, the bumped vclock, this writer, the current schema version,
and `sync_status = max(sync_status, changed)` on every `rec_local` row of
the guid; `is_deleted` is left untouched. -/
def updatedLocalRow (db : RemergeDb) (guid : String) (record : RecordData) (vclock : VClock)
    (now : Int) (r : LocalRow) : LocalRow :=
  if r.guid == guid then
    { r with local_modified_ms := now
             record_data := record
             vector_clock := vclock
             last_writer_id := db.client_id
             remerge_schema_version := some db.schema_version
             sync_status := max r.sync_status syncStatusChanged }
  else r

/-- The table-level effect of that UPDATE. -/
def updateLocalFromRecord (db : RemergeDb) (s : DbState) (guid : String) (record : RecordData)
    (vclock : VClock) (now : Int) : DbState :=
  { s with rec_local := s.rec_local.map (updatedLocalRow db guid record vclock now) }

/-- Embeds `RemergeDb::update_record` (db.rs lines 300-340): in one transaction,
check dupes, materialize the overlay, mark the mirror overridden, bump the
vclock, and write the overlay row. -/
def RemergeDb.updateRecord (db : RemergeDb) (native : NativeRecord) (now : Int) (s : DbState) :
    Except RemergeError Unit × DbState :=
  let guid := native.id
  let record : RecordData := some native
  transact s (fun s0 =>
    match dupeExists record with
    | .error e => .error e
    | .ok true => .error .duplicate
    | .ok false =>
      match ensureLocalOverlayExists s0 guid with
      | .error e => .error e
      | .ok s1 =>
        let s2 := markMirrorOverridden s1 guid
        match getBumpedVClock db s2 guid with
        | .error e => .error e
        | .ok (vclock, s3) => .ok ((), updateLocalFromRecord db s3 guid record vclock now))

/-! ## Sync15 encrypted BSO envelope (bso_record.rs) -/

/-- Errors of the sync15 adapter paths used by bso_record.rs. -/
inductive Sync15Error where
  | hmacMismatch
  | badBase64
  | cryptoFailure
  | jsonError
deriving DecidableEq, Repr

/-- Byte strings, modelled as lists of naturals. -/
abbrev Bytes := List Nat

/-- The bytes of a string, as in Rust `str::as_bytes` (modelled from the
spec at the level of scalar values: one value per character). -/
def strToBytes (s : String) : Bytes :=
  s.data.map (fun c => c.toNat)

/-- The inverse of `strToBytes`, as performed inside the key bundle when
decryption converts the recovered bytes back to a string. -/
def bytesToStr (bs : Bytes) : String :=
  String.mk (bs.map (fun n => Char.ofNat n))

/-- Modelled from the spec: a key bundle holds an encryption key and an
HMAC key (key_bundle.rs is not part of the covered sources). -/
structure KeyBundle where
  enc_key : Nat
  hmac_key : Nat
deriving DecidableEq, Repr

/-- The key stream a given iv contributes to the cipher model. -/
def ivKey (iv : Bytes) : Nat := iv.sum

/-- Modelled from the spec: `encrypt_bytes_rand_iv` encrypts the plaintext
under a freshly generated random IV and returns ciphertext and IV.  The
randomly drawn IV is passed in by the caller of the model; encryption is
modelled as an invertible keyed shift of each byte. -/
def KeyBundle.encrypt_bytes_rand_iv (kb : KeyBundle) (iv : Bytes) (pt : Bytes) :
    Except Sync15Error (Bytes × Bytes) :=
  .ok (pt.map (fun b => b + kb.enc_key + ivKey iv), iv)

/-- Modelled from the spec: `decrypt(ciphertext, iv)` inverts the cipher
and yields the recovered plaintext string. -/
def KeyBundle.decrypt (kb : KeyBundle) (ct : Bytes) (iv : Bytes) :
    Except Sync15Error String :=
  .ok (bytesToStr (ct.map (fun b => b - (kb.enc_key + ivKey iv))))

/-- Modelled from the spec: the HMAC tag of a byte string under the hmac
key, a deterministic keyed function of the input string. -/
def hmacTag (kb : KeyBundle) (s : String) : String :=
  toString kb.hmac_key ++ "-" ++ s

/-- Modelled from the spec: `hmac_string` computes the tag over the given
(base64 ciphertext) string bytes. -/
def KeyBundle.hmac_string (kb : KeyBundle) (s : String) : Except Sync15Error String :=
  .ok (hmacTag kb s)

/-- Modelled from the spec: `verify_hmac_string` recomputes the tag of the
ciphertext string and compares in constant time. -/
def KeyBundle.verify_hmac_string (kb : KeyBundle) (tag : String) (s : String) :
    Except Sync15Error Bool :=
  .ok (tag == hmacTag kb s)

/-- Modelled from the spec: the external base64 crate; one byte encodes to
a run of markers terminated by a separator, which keeps the coding
injective and exactly invertible. -/
def base64encodeByte (n : Nat) : List Char :=
  List.replicate n 'a' ++ ['b']

/-- Modelled from the spec: `base64::encode` over a byte string. -/
def base64encode (bs : Bytes) : String :=
  String.mk ((bs.map base64encodeByte).flatten)

/-- Helper of `base64decode`: scan the characters, accumulating the length
of the current run; any unexpected character is a decode error, as is a
trailing unterminated run. -/
def base64decodeAux : List Char → Nat → Except Sync15Error Bytes
  | [], 0 => .ok []
  | [], _ + 1 => .error .badBase64
  | c :: cs, k =>
    if c = 'a' then base64decodeAux cs (k + 1)
    else if c = 'b' then
      match base64decodeAux cs 0 with
      | .error e => .error e
      | .ok l => .ok (k :: l)
    else .error .badBase64

/-- Modelled from the spec: `base64::decode`, failing on malformed input. -/
def base64decode (s : String) : Except Sync15Error Bytes :=
  base64decodeAux s.data 0

/-- The BSO record of bso_record.rs (lines 15-41): `modified` carries the
server timestamp and is marked skip_serializing; `sortindex` and `ttl` are
optional; the payload is (de)serialized through the `as_json` embedded
string.  ServerTimestamp wraps an f64; no covered claim depends on its
arithmetic, so it is modelled as Int. -/
structure BsoRecord (T : Type) where
  id : String
  collection : String
  modified : Int
  sortindex : Option Int
  ttl : Option Nat
  payload : T
deriving DecidableEq, Repr

/-- Embeds `BsoRecord::map_payload` (bso_record.rs lines 44-54). -/
def BsoRecord.map_payload {T P : Type} (r : BsoRecord T) (mapper : T → P) : BsoRecord P :=
  { id := r.id
    collection := r.collection
    modified := r.modified
    sortindex := r.sortindex
    ttl := r.ttl
    payload := mapper r.payload }

/-- Embeds `BsoRecord::with_payload` (bso_record.rs lines 56-59). -/
def BsoRecord.with_payload {T P : Type} (r : BsoRecord T) (payload : P) : BsoRecord P :=
  r.map_payload (fun _ => payload)

/-- Embeds `EncryptedPayload` (bso_record.rs lines 129-135): three base64 strings,
with the iv field serialized under the name IV. -/
structure EncryptedPayload where
  iv : String
  hmac : String
  ciphertext : String
deriving DecidableEq, Repr

/-- Modelled from the spec: the serde_json serialization of the payload
type T (`to_string` and `from_str`), carried as an explicit codec since
serde derives are external to the covered sources. -/
structure JsonCodec (T : Type) where
  toJson : T → String
  fromJson : String → Except Sync15Error T

/-- Embeds `BsoRecord::encrypt` (bso_record.rs lines 154-168): JSON-encode the
payload, encrypt its bytes under a random IV, base64 both, HMAC the base64
ciphertext bytes, and assemble the encrypted envelope around the same
outer fields. -/
def BsoRecord.encrypt {T : Type} (r : BsoRecord T) (codec : JsonCodec T) (key : KeyBundle)
    (iv : Bytes) : Except Sync15Error (BsoRecord EncryptedPayload) :=
  let cleartext := codec.toJson r.payload
  match key.encrypt_bytes_rand_iv iv (strToBytes cleartext) with
  | .error e => .error e
  | .ok (enc_bytes, iv2) =>
    let iv_base64 := base64encode iv2
    let enc_base64 := base64encode enc_bytes
    match key.hmac_string enc_base64 with
    | .error e => .error e
    | .ok hmac =>
      .ok (r.with_payload { iv := iv_base64, hmac := hmac, ciphertext := enc_base64 })

/-- Embeds `BsoRecord::decrypt` (bso_record.rs lines 137-152): verify the HMAC of
the base64 ciphertext string first and stop with HmacMismatch on failure;
only then base64-decode the iv and the ciphertext, decrypt, and JSON-parse
the cleartext. -/
def BsoRecord.decrypt {T : Type} (r : BsoRecord EncryptedPayload) (codec : JsonCodec T)
    (key : KeyBundle) : Except Sync15Error (BsoRecord T) :=
  match key.verify_hmac_string r.payload.hmac r.payload.ciphertext with
  | .error e => .error e
  | .ok false => .error .hmacMismatch
  | .ok true =>
    match base64decode r.payload.iv with
    | .error e => .error e
    | .ok iv =>
      match base64decode r.payload.ciphertext with
      | .error e => .error e
      | .ok ciphertext =>
        match key.decrypt ciphertext iv with
        | .error e => .error e
        | .ok cleartext =>
          match codec.fromJson cleartext with
          | .error e => .error e
          | .ok new_payload => .ok (r.with_payload new_payload)

/-! ### Client-side serialization of a BSO record (serde attributes of
bso_record.rs plus the as_json module, lines 15-41 and 111-127) -/

/-- A hexadecimal digit, used by the JSON control-character escape. -/
def hexDigit (n : Nat) : Char :=
  if n < 10 then Char.ofNat (48 + n) else Char.ofNat (87 + n)

/-- The JSON string escape serde_json applies when writing a string value:
quote and backslash are backslash-escaped, the named control characters
get their short escapes, other control characters a unicode escape. -/
def jsonEscapeChar (c : Char) : List Char :=
  if c = '"' then ['\\', '"']
  else if c = '\\' then ['\\', '\\']
  else if c = Char.ofNat 8 then ['\\', 'b']
  else if c = Char.ofNat 9 then ['\\', 't']
  else if c = Char.ofNat 10 then ['\\', 'n']
  else if c = Char.ofNat 12 then ['\\', 'f']
  else if c = Char.ofNat 13 then ['\\', 'r']
  else if c.toNat < 32 then ['\\', 'u', '0', '0', hexDigit (c.toNat / 16), hexDigit (c.toNat % 16)]
  else [c]

/-- A JSON string literal: the escaped characters between double quotes. -/
def jsonString (s : String) : String :=
  String.mk ('"' :: (s.data.map jsonEscapeChar).flatten ++ ['"'])

/-- The serde_json serialization of `EncryptedPayload`: an object with the
fields IV, hmac, ciphertext in declaration order. -/
def EncryptedPayload.json (p : EncryptedPayload) : String :=
  "\x7b\"IV\":" ++ jsonString p.iv ++ ",\"hmac\":" ++ jsonString p.hmac ++
    ",\"ciphertext\":" ++ jsonString p.ciphertext ++ "\x7d"

/-- The client-side serde serialization of a BSO record, following the
attributes on the struct (bso_record.rs lines 15-41): fields in
declaration order; `modified` skipped unconditionally; `sortindex` and
`ttl` skipped when None; the payload written through `as_json`, that is,
as a JSON string containing the JSON encoding of the payload. -/
def serializeBso {T : Type} (payloadToJson : T → String) (r : BsoRecord T) : String :=
  "\x7b\"id\":" ++ jsonString r.id ++ ",\"collection\":" ++ jsonString r.collection
    ++ (match r.sortindex with
        | none => ""
        | some i => ",\"sortindex\":" ++ toString i)
    ++ (match r.ttl with
        | none => ""
        | some t => ",\"ttl\":" ++ toString t)
    ++ ",\"payload\":" ++ jsonString (payloadToJson r.payload)
    ++ "\x7d"

/-- The serialization of an encrypted envelope. -/
def serializeEncBso (r : BsoRecord EncryptedPayload) : String :=
  serializeBso EncryptedPayload.json r

/-! ## FxA session-token migrator (migrator.rs) -/

/-- Errors of the fxa-client paths used by migrator.rs. -/
inductive FxaError where
  | illegalState (msg : String)
  | malformedHex
  | network (msg : String)
deriving DecidableEq, Repr

/-- A scoped key as synthesized by the migrator (scoped_keys.rs fields as
used at the call site). -/
structure ScopedKey where
  kty : String
  scope : String
  k : String
  kid : String
deriving DecidableEq, Repr

/-- The persisted account state the migrator touches: the session token and
the scoped keys, plus the opaque config handed to the collaborators. -/
structure FxaState where
  session_token : Option String
  scoped_keys : List (String × ScopedKey)
  config : String
deriving DecidableEq, Repr

/-- Modelled from the spec: the OAuth token response returned by the
network collaborator; opaque to the migrator, which only forwards it. -/
structure OAuthResponse where
  body : String
deriving DecidableEq, Repr

/-- Modelled from the spec: the per-scope key data returned by
`scoped_key_data`; the migrator reads the rotation timestamp for the kid. -/
structure ScopedKeyData where
  key_rotation_timestamp : Nat
deriving DecidableEq, Repr

/-- Modelled from the spec: the external collaborators the migrator calls —
the network client operations (duplicate_session,
oauth_tokens_from_session_token, scoped_key_data) and the fxa-client
internal handle_oauth_response, none of which are part of the covered
sources.  Each is an arbitrary function of the model. -/
structure FxaCollaborators where
  duplicate_session : String → String → Except FxaError String
  oauth_tokens_from_session_token : String → String → List String → Except FxaError OAuthResponse
  scoped_key_data : String → String → String → Except FxaError (List (String × ScopedKeyData))
  handle_oauth_response : FxaState → OAuthResponse → Except FxaError FxaState

/-- Modelled from the spec: the PROFILE scope constant of scopes.rs. -/
def scopesProfile : String := "profile"

/-- Modelled from the spec: the OLD_SYNC scope constant of scopes.rs. -/
def scopesOldSync : String := "https://identity.mozilla.com/apps/oldsync"

/-- The numeric value of a hexadecimal digit character, if any. -/
def hexVal (c : Char) : Option Nat :=
  if 48 ≤ c.toNat ∧ c.toNat ≤ 57 then some (c.toNat - 48)
  else if 97 ≤ c.toNat ∧ c.toNat ≤ 102 then some (c.toNat - 87)
  else if 65 ≤ c.toNat ∧ c.toNat ≤ 70 then some (c.toNat - 55)
  else none

/-- Modelled from the spec: `hex::decode` — pairs of hex digits to bytes,
failing on an odd length or a non-hex character. -/
def hexDecodeChars : List Char → Except FxaError Bytes
  | [] => .ok []
  | [_] => .error .malformedHex
  | a :: b :: rest =>
    match hexVal a, hexVal b with
    | some x, some y =>
      match hexDecodeChars rest with
      | .error e => .error e
      | .ok l => .ok ((16 * x + y) :: l)
    | _, _ => .error .malformedHex

/-- Modelled from the spec: `hex::decode` on a string. -/
def hexDecode (s : String) : Except FxaError Bytes :=
  hexDecodeChars s.data

/-- Modelled from the spec: `base64::encode_config(..., URL_SAFE_NO_PAD)`,
an injective byte-string-to-text coding. -/
def base64UrlNoPad (bs : Bytes) : String :=
  String.join (bs.map (fun n => "." ++ toString n))

/-- The HashMap insert on the scoped-keys map of the account state. -/
def insertScopedKey (m : List (String × ScopedKey)) (scope : String) (key : ScopedKey) :
    List (String × ScopedKey) :=
  (scope, key) :: m.filter (fun p => !(p.1 == scope))

/-- Embeds `FirefoxAccount::migrate_from_session_token` (migrator.rs lines 21-76):
error out with IllegalState when a session token is already set, before
touching anything; otherwise optionally duplicate the session, trade the
session token for OAuth tokens, handle the response (which is the first
mutation of the account state), synthesize the kSync scoped key from the
hex inputs and the scoped key data, and finally store the session token
and the scoped key.  The returned state is the account state at the point
the function returns, since the migrator runs under no transaction. -/
def migrateFromSessionToken (col : FxaCollaborators) (st0 : FxaState) (session_token : String)
    (k_sync : String) (k_xcs : String) (copy_session_token : Bool) :
    Except FxaError Unit × FxaState :=
  if st0.session_token.isSome then
    (.error (.illegalState "Session Token is already set."), st0)
  else
    match (if copy_session_token then col.duplicate_session st0.config session_token
           else .ok session_token) with
    | .error e => (.error e, st0)
    | .ok migration_session_token =>
      match col.oauth_tokens_from_session_token st0.config migration_session_token
          [scopesProfile, scopesOldSync] with
      | .error e => (.error e, st0)
      | .ok oauth_response =>
        match col.handle_oauth_response st0 oauth_response with
        | .error e => (.error e, st0)
        | .ok st1 =>
          match hexDecode k_sync with
          | .error e => (.error e, st1)
          | .ok k_sync_bytes =>
            let k_sync_b64 := base64UrlNoPad k_sync_bytes
            match hexDecode k_xcs with
            | .error e => (.error e, st1)
            | .ok k_xcs_bytes =>
              let k_xcs_b64 := base64UrlNoPad k_xcs_bytes
              match col.scoped_key_data st1.config migration_session_token scopesOldSync with
              | .error e => (.error e, st1)
              | .ok scoped_key_data =>
                match scoped_key_data.lookup scopesOldSync with
                | none =>
                  (.error (.illegalState "The session token does not have access to kSync!"), st1)
                | some oldsync_key_data =>
                  let kid := toString oldsync_key_data.key_rotation_timestamp ++ "-" ++ k_xcs_b64
                  let k_sync_scoped_key : ScopedKey :=
                    { kty := "oct", scope := scopesOldSync, k := k_sync_b64, kid := kid }
                  let st2 := { st1 with
                    session_token := some migration_session_token,
                    scoped_keys := insertScopedKey st1.scoped_keys scopesOldSync
                      k_sync_scoped_key }
                  (.ok (), st2)

/-! ## Shared lemmas and concrete fixtures -/

/-- Rollback: whenever the transaction body fails, the state after the call
is the state before it. -/
theorem transact_error_state {α : Type} (s : DbState)
    (body : DbState → Except RemergeError (α × DbState)) (e : RemergeError)
    (h : (transact s body).1 = .error e) : (transact s body).2 = s := by
  unfold transact at h ⊢
  cases hb : body s with
  | error e2 => simp [hb]
  | ok p => simp [hb] at h

/-- A store handle used by the concrete fixtures. -/
def sampleDb : RemergeDb := { client_id := "C1", schema_version := "1.0.0" }

/-- A native record with guid g. -/
def gRecord : NativeRecord := { id := "g", data := "y" }

/-- A mirror row for guid g, last written by client C2, not overridden. -/
def mirrorRowG : MirrorRow :=
  { guid := "g", record_data := some { id := "g", data := "x" },
    vector_clock := ⟨[("C2", 5)]⟩, last_writer_id := "C2",
    server_modified_ms := 7, is_overridden := some 0 }

/-- A state in which guid g is visible only through the mirror. -/
def mirrorOnlyState : DbState :=
  { rec_local := [], rec_mirror := [mirrorRowG], changeCounter := 3 }

/-- A local tombstone row for guid g. -/
def tombstoneRowG : LocalRow :=
  { guid := "g", record_data := none, vector_clock := ⟨[("C1", 3)]⟩,
    last_writer_id := "C1", local_modified_ms := 50, is_deleted := true,
    sync_status := 1, remerge_schema_version := some "1.0.0" }

/-- A state holding a tombstone overlay for guid g, mirror overridden. -/
def tombstoneState : DbState :=
  { rec_local := [tombstoneRowG],
    rec_mirror := [{ mirrorRowG with is_overridden := some 1 }],
    changeCounter := 3 }

/-- A state whose mirror row for guid g carries NULL in is_overridden. -/
def nullOverriddenState : DbState :=
  { rec_local := [], rec_mirror := [{ mirrorRowG with is_overridden := none }],
    changeCounter := 0 }

/-- A json codec for Bool payloads, used to instantiate the generic
envelope theorems on a concrete serializable type. -/
def boolCodec : JsonCodec Bool :=
  { toJson := fun b => cond b "true" "false"
    fromJson := fun s =>
      if s = "true" then .ok true
      else if s = "false" then .ok false
      else .error .jsonError }

/-- A concrete key bundle. -/
def keyBundle0 : KeyBundle := { enc_key := 2, hmac_key := 3 }

/-- The encrypted envelope of the repository test `test_serialize_enc`. -/
def testEnvelope : BsoRecord EncryptedPayload :=
  { id := "1234", collection := "passwords", modified := 999, sortindex := none, ttl := none,
    payload := { iv := "aaaaa", hmac := "bbbbb", ciphertext := "ccccc" } }

/-- A concrete account state that already holds a session token. -/
def accountWithToken : FxaState :=
  { session_token := some "0123456789abcdef", scoped_keys := [], config := "cfg" }

/-- Concrete collaborators for the migrator fixtures. -/
def trivialCollaborators : FxaCollaborators :=
  { duplicate_session := fun _ t => .ok t
    oauth_tokens_from_session_token := fun _ _ _ => .ok { body := "tokens" }
    scoped_key_data := fun _ _ _ => .ok [(scopesOldSync, { key_rotation_timestamp := 1234 })]
    handle_oauth_response := fun st _ => .ok st }

/-! ## Claim C1 -/

/-- Claim C1: the spec says that deleting a guid visible only through the
mirror inserts an overlay tombstone derived from the mirror row, marks the
mirror overridden and returns true.  The code cannot do this: the
tombstone INSERT of delete_by_id selects a parenthesized row value as its
single result column, which SQLite rejects when preparing the statement,
so delete_by_id returns an error and the transaction rolls back, leaving
the state untouched.  This theorem evaluates the model at the failing
input. -/
theorem c1_delete_mirror_only_fails :
    RemergeDb.deleteById sampleDb "g" 100 mirrorOnlyState =
      (.error .rowValueMisused, mirrorOnlyState) := by decide

/-! ## Claim C2 -/

/-- Claim C2: every mutating operation (create, update_record,
delete_by_id) that returns an error leaves the database state — the two
record tables and the CHANGE_COUNTER meta value — exactly as it was
before the call.  Every statement of each operation runs on the single
connection inside the operation's transaction, which commits only at the
end; an error drops the transaction guard, rolling everything back. -/
theorem c2_mutations_atomic (db : RemergeDb) (native : NativeRecord) (id : String)
    (now : Int) (s : DbState) :
    (∀ e, (db.create native now s).1 = .error e → (db.create native now s).2 = s) ∧
    (∀ e, (db.updateRecord native now s).1 = .error e → (db.updateRecord native now s).2 = s) ∧
    (∀ e, (db.deleteById id now s).1 = .error e → (db.deleteById id now s).2 = s) := by
  refine ⟨fun e h => ?_, fun e h => ?_, fun e h => ?_⟩
  · exact transact_error_state s _ e h
  · exact transact_error_state s _ e h
  · exact transact_error_state s _ e h

/-- Witness for C2: a concrete failing create (duplicate visible guid)
returns IdNotUnique and leaves the concrete state unchanged. -/
theorem c2_mutations_atomic_witness :
    (sampleDb.create gRecord 1 mirrorOnlyState).1 = .error .idNotUnique ∧
    (sampleDb.create gRecord 1 mirrorOnlyState).2 = mirrorOnlyState :=
  ⟨by decide,
   (c2_mutations_atomic sampleDb gRecord "g" 1 mirrorOnlyState).1 .idNotUnique (by decide)⟩

/-! ## Claim C7 -/

/-- Claim C7: counter_bump reads CHANGE_COUNTER, increments it, writes it
back and returns the new value — that part holds (middle conjunct).  But
on a negative stored counter, and on i64 overflow of the increment, the
code panics (assert! and Counter::try_from(...).expect) instead of
returning the DbCorruption error the claim describes; its own FIXME notes
that an error return was intended.  This theorem evaluates the model at
the failing inputs. -/
theorem c7_counter_bump_panics :
    counterBump { rec_local := [], rec_mirror := [], changeCounter := -1 } =
      .error (.panicked "negative global change counter") ∧
    counterBump { rec_local := [], rec_mirror := [], changeCounter := 5 } =
      .ok (6, { rec_local := [], rec_mirror := [], changeCounter := 6 }) ∧
    counterBump { rec_local := [], rec_mirror := [], changeCounter := i64Max } =
      .error (.panicked "i64 overflow") := by
  refine ⟨by decide, by decide, ?_⟩
  simp [counterBump, i64Max]

/-! ## Claim C9 -/

/-- Claim C9: whenever a session token is already set on the account,
migrate_from_session_token fails with IllegalState and returns with the
persisted account state unchanged, whatever the arguments and whatever
the collaborators would answer; the guard runs before any mutation. -/
theorem c9_migrate_illegal_state (col : FxaCollaborators) (st : FxaState)
    (session_token k_sync k_xcs : String) (copy_session_token : Bool)
    (h : st.session_token.isSome = true) :
    migrateFromSessionToken col st session_token k_sync k_xcs copy_session_token =
      (.error (.illegalState "Session Token is already set."), st) := by
  unfold migrateFromSessionToken
  rw [h]
  simp

/-- Witness for C9: the guard fires on a concrete account that already has
a session token, with concrete collaborators that would all succeed. -/
theorem c9_migrate_illegal_state_witness :
    migrateFromSessionToken trivialCollaborators accountWithToken "aa" "bb" "cc" true =
      (.error (.illegalState "Session Token is already set."), accountWithToken) :=
  c9_migrate_illegal_state trivialCollaborators accountWithToken "aa" "bb" "cc" true (by decide)

/-! ## Claim C5 -/

/-- Claim C5: when the hmac field of an encrypted envelope does not verify
against the base64 ciphertext string, decrypt fails with HmacMismatch and
never reaches base64 decoding or decryption.  The record is arbitrary: in
particular its iv and ciphertext may not even be valid base64, and the
result is still HmacMismatch rather than any decode or decrypt error,
which is exactly the no-fallthrough property. -/
theorem c5_decrypt_bad_hmac {T : Type} (codec : JsonCodec T) (key : KeyBundle)
    (r : BsoRecord EncryptedPayload)
    (h : key.verify_hmac_string r.payload.hmac r.payload.ciphertext = .ok false) :
    r.decrypt codec key = .error .hmacMismatch := by
  unfold BsoRecord.decrypt
  rw [h]

/-- Witness for C5: a concrete envelope with a tampered hmac (and with
ciphertext and iv that are not even decodable) is rejected with
HmacMismatch. -/
theorem c5_decrypt_bad_hmac_witness :
    BsoRecord.decrypt
      { id := "1234", collection := "passwords", modified := 999, sortindex := none,
        ttl := none,
        payload := { iv := "not base64", hmac := "tampered", ciphertext := "zzz" } }
      boolCodec keyBundle0 = .error .hmacMismatch :=
  c5_decrypt_bad_hmac boolCodec keyBundle0
    { id := "1234", collection := "passwords", modified := 999, sortindex := none,
      ttl := none,
      payload := { iv := "not base64", hmac := "tampered", ciphertext := "zzz" } }
    (by decide)

/-! ## Claim C8 -/

/-- Claim C8: client-side serialization of a BSO record never emits the
modified field (first conjunct: the output is invariant under any value of
modified), omits sortindex and ttl when they are None, and writes the
payload as a single JSON string holding the JSON encoding of the payload
object.  The second conjunct reproduces the repository test
test_serialize_enc byte for byte (modified = 999 present on the record,
absent from the output); the third shows the optional fields emitted when
set. -/
theorem c8_serialization :
    (∀ (r : BsoRecord EncryptedPayload) (m : Int),
      serializeEncBso { r with modified := m } = serializeEncBso r) ∧
    serializeEncBso testEnvelope =
      "\x7b\"id\":\"1234\",\"collection\":\"passwords\",\"payload\":\"\x7b\\\"IV\\\":\\\"aaaaa\\\",\\\"hmac\\\":\\\"bbbbb\\\",\\\"ciphertext\\\":\\\"ccccc\\\"\x7d\"\x7d" ∧
    serializeEncBso { testEnvelope with sortindex := some 100, ttl := some 12 } =
      "\x7b\"id\":\"1234\",\"collection\":\"passwords\",\"sortindex\":100,\"ttl\":12,\"payload\":\"\x7b\\\"IV\\\":\\\"aaaaa\\\",\\\"hmac\\\":\\\"bbbbb\\\",\\\"ciphertext\\\":\\\"ccccc\\\"\x7d\"\x7d" :=
  ⟨fun r m => rfl, by decide, by decide⟩

/-! ## Claim C6, counterexample and amended statement -/

/-- Counterexample for C6: on a store whose only trace of guid g is a
tombstone overlay (mirror overridden), creating a record with guid g does
not fail with InvalidRecord::IdNotUnique as the claim states: the
visibility-based exists() ignores the tombstone, so the INSERT runs and
hits the rec_local primary key, a constraint violation. -/
theorem c6_counterexample :
    (sampleDb.create gRecord 1 tombstoneState).1 = .error .constraintViolation ∧
    (sampleDb.create gRecord 1 tombstoneState).1 ≠ .error .idNotUnique := by decide

/-- Amended C6: on a store whose only trace of guid g is a tombstone
overlay (every mirror row for g overridden), create of a record with guid
g still fails and inserts nothing, but with the primary-key constraint
violation raised by the rec_local INSERT, not with
InvalidRecord::IdNotUnique, because exists() does not see tombstones.
The counter hypotheses only rule out the independent counter panics. -/
theorem c6_create_on_tombstone_constraint (db : RemergeDb) (native : NativeRecord) (now : Int)
    (s : DbState)
    (hloc : ∃ r ∈ s.rec_local, r.guid = native.id)
    (hdel : ∀ r ∈ s.rec_local, r.guid = native.id → r.is_deleted = true)
    (hmir : ∀ m ∈ s.rec_mirror, m.guid = native.id → m.is_overridden = some 1)
    (hctr0 : 0 ≤ s.changeCounter) (hctrMax : s.changeCounter ≠ i64Max) :
    db.create native now s = (.error .constraintViolation, s) := by
  have hex : recExists s native.id = false := by
    unfold recExists
    rw [Bool.or_eq_false_iff]
    constructor
    · rw [List.any_eq_false]
      intro r hr
      by_cases hg : r.guid = native.id
      · simp [hg, hdel r hr hg]
      · simp [hg]
    · rw [List.any_eq_false]
      intro m hm
      by_cases hg : m.guid = native.id
      · simp [hg, hmir m hm hg]
      · simp [hg]
  have hbump : counterBump s =
      .ok ((s.changeCounter + 1).toNat, { s with changeCounter := s.changeCounter + 1 }) := by
    unfold counterBump
    rw [if_neg (by omega), if_neg hctrMax]
  have hins : s.rec_local.any (fun r => r.guid == native.id) = true := by
    obtain ⟨r, hr, hg⟩ := hloc
    exact List.any_eq_true.mpr ⟨r, hr, by simp [hg]⟩
  unfold RemergeDb.create transact
  simp only [hex, Bool.false_eq_true, if_false, dupeExists, hbump, insertLocalRow, hins, if_true]

/-- Witness for the amended C6, at the concrete tombstone store. -/
theorem c6_create_on_tombstone_constraint_witness :
    sampleDb.create gRecord 1 tombstoneState = (.error .constraintViolation, tombstoneState) :=
  c6_create_on_tombstone_constraint sampleDb gRecord 1 tombstoneState
    (by decide) (by decide) (by decide) (by decide) (by decide)

/-! ## Claim C10, counterexample and amended statement -/

/-- Counterexample for C10: with a mirror row whose is_overridden column is
NULL, exists() (which filters with IS NOT 1) sees the record while
get_by_id (which filters with = 0) does not, so the two disagree exactly
where the claim says they agree. -/
theorem c10_counterexample :
    recExists nullOverriddenState "g" = true ∧
    RemergeDb.getById nullOverriddenState "g" = .ok none := by decide

/-- Amended C10: exists and get_by_id agree on every state in which each
mirror row of the queried guid carries 0 or 1 in is_overridden; the
disagreement is confined to other values such as NULL. -/
theorem c10_exists_agrees_getById (s : DbState) (g : String)
    (h : ∀ m ∈ s.rec_mirror, m.guid = g → m.is_overridden = some 0 ∨ m.is_overridden = some 1) :
    (recExists s g = true ↔ ∃ r, RemergeDb.getById s g = .ok (some r)) := by
  unfold recExists RemergeDb.getById
  cases hl : s.rec_local.find? (fun r => r.guid == g && !r.is_deleted) with
  | some r =>
    have hmem := List.mem_of_find?_eq_some hl
    have hpred := List.find?_some hl
    have hany : s.rec_local.any (fun r => r.guid == g && !r.is_deleted) = true :=
      List.any_eq_true.mpr ⟨r, hmem, hpred⟩
    cases hrd : r.record_data with
    | none => simp [hany, hl, hrd, local_to_native]
    | some n => simp [hany, hl, hrd, local_to_native]
  | none =>
    have hanyl : s.rec_local.any (fun r => r.guid == g && !r.is_deleted) = false := by
      rw [List.any_eq_false]
      exact List.find?_eq_none.mp hl
    cases hm : s.rec_mirror.find? (fun r => r.guid == g && r.is_overridden == some 0) with
    | some m =>
      have hpm := List.find?_some hm
      rw [Bool.and_eq_true] at hpm
      have hanym : s.rec_mirror.any (fun r => r.guid == g && !(r.is_overridden == some 1)) = true := by
        refine List.any_eq_true.mpr ⟨m, List.mem_of_find?_eq_some hm, ?_⟩
        have : m.is_overridden = some 0 := by
          have := hpm.2
          rwa [beq_iff_eq] at this
        simp [hpm.1, this]
      cases hrd : m.record_data with
      | none => simp [hanyl, hanym, hl, hm, hrd, local_to_native]
      | some n => simp [hanyl, hanym, hl, hm, hrd, local_to_native]
    | none =>
      have hanym : s.rec_mirror.any (fun r => r.guid == g && !(r.is_overridden == some 1)) = false := by
        rw [List.any_eq_false]
        intro m hmem
        intro hp
        rw [Bool.and_eq_true] at hp
        have hguid : m.guid = g := by
          have := hp.1
          rwa [beq_iff_eq] at this
        have hne1 : ¬(m.is_overridden == some 1) = true := by
          have := hp.2
          simp at this
          simp [this]
        have h01 := h m hmem hguid
        have hov0 : m.is_overridden = some 0 := by
          rcases h01 with h0 | h1
          · exact h0
          · exact absurd (by simp [h1]) hne1
        have : (fun r : MirrorRow => r.guid == g && r.is_overridden == some 0) m = true := by
          simp [hguid, hov0]
        exact (List.find?_eq_none.mp hm m hmem) this
      simp [hanyl, hanym, hl, hm]

/-- Witness for the amended C10, at a concrete state whose mirror row is
well-formed (is_overridden = 0): both operations see the record. -/
theorem c10_exists_agrees_getById_witness :
    recExists mirrorOnlyState "g" = true ↔
      ∃ r, RemergeDb.getById mirrorOnlyState "g" = .ok (some r) :=
  c10_exists_agrees_getById mirrorOnlyState "g" (by decide)

/-! ## Claim C4: encrypt/decrypt round trip -/

/-- Decoding a run of n markers closed by the separator yields n plus the
run already consumed, then continues with the rest. -/
theorem base64decodeAux_replicate (n k : Nat) (rest : List Char) :
    base64decodeAux (List.replicate n 'a' ++ 'b' :: rest) k =
      match base64decodeAux rest 0 with
      | .error e => .error e
      | .ok l => .ok ((k + n) :: l) := by
  induction n generalizing k with
  | zero =>
    simp [base64decodeAux]
  | succ n ih =>
    rw [List.replicate_succ, List.cons_append]
    have hstep : base64decodeAux ('a' :: (List.replicate n 'a' ++ 'b' :: rest)) k =
        base64decodeAux (List.replicate n 'a' ++ 'b' :: rest) (k + 1) := by
      simp [base64decodeAux]
    rw [hstep, ih]
    have harith : k + 1 + n = k + (n + 1) := by omega
    rw [harith]

/-- Base64 decode inverts base64 encode, at the level of the scanner. -/
theorem base64_roundtrip_aux (bs : Bytes) :
    base64decodeAux ((bs.map base64encodeByte).flatten) 0 = .ok bs := by
  induction bs with
  | nil => rfl
  | cons n t ih =>
    show base64decodeAux (base64encodeByte n ++ (t.map base64encodeByte).flatten) 0 = .ok (n :: t)
    rw [base64encodeByte, List.append_assoc, List.singleton_append, base64decodeAux_replicate, ih]
    simp

/-- Base64 decode inverts base64 encode. -/
theorem base64_roundtrip (bs : Bytes) : base64decode (base64encode bs) = .ok bs :=
  base64_roundtrip_aux bs

/-- Unshifting inverts shifting on every byte list. -/
theorem map_shift_unshift (k1 k2 : Nat) (bs : Bytes) :
    (bs.map (fun b => b + k1 + k2)).map (fun b => b - (k1 + k2)) = bs := by
  rw [List.map_map]
  have hcongr : ∀ b ∈ bs, ((fun b => b - (k1 + k2)) ∘ fun b => b + k1 + k2) b = id b := by
    intro b _
    show b + k1 + k2 - (k1 + k2) = b
    omega
  rw [List.map_congr_left hcongr, List.map_id]

/-- Turning the character scalars of a string back into characters yields
the original string. -/
theorem bytesToStr_strToBytes (s : String) : bytesToStr (strToBytes s) = s := by
  unfold bytesToStr strToBytes
  rw [List.map_map]
  have hcomp : ((fun n => Char.ofNat n) ∘ fun c : Char => c.toNat) = id := by
    funext c
    exact Char.ofNat_toNat c
  rw [hcomp, List.map_id]

/-- Claim C4: for every payload whose JSON codec round-trips (that is, the
payload is JSON-serializable) and every key bundle, decrypting the
envelope produced by encrypt under the same key succeeds and returns the
original record — payload and outer fields alike — for every random IV
draw. -/
theorem c4_encrypt_decrypt_roundtrip {T : Type} (codec : JsonCodec T)
    (h : ∀ t, codec.fromJson (codec.toJson t) = .ok t)
    (key : KeyBundle) (iv : Bytes) (r : BsoRecord T) :
    (r.encrypt codec key iv).bind (fun enc => enc.decrypt codec key) = .ok r := by
  have henc : r.encrypt codec key iv = .ok (r.with_payload
      { iv := base64encode iv
        hmac := hmacTag key (base64encode
          ((strToBytes (codec.toJson r.payload)).map (fun b => b + key.enc_key + ivKey iv)))
        ciphertext := base64encode
          ((strToBytes (codec.toJson r.payload)).map (fun b => b + key.enc_key + ivKey iv)) }) :=
    rfl
  rw [henc]
  show BsoRecord.decrypt _ codec key = .ok r
  unfold BsoRecord.decrypt
  simp only [BsoRecord.with_payload, BsoRecord.map_payload, KeyBundle.verify_hmac_string,
    beq_self_eq_true, base64_roundtrip, KeyBundle.decrypt, map_shift_unshift,
    bytesToStr_strToBytes, h]

/-- Witness for C4: a concrete Bool payload record, key bundle and IV
round-trip to the original record. -/
theorem c4_encrypt_decrypt_roundtrip_witness :
    (BsoRecord.encrypt
        { id := "r1", collection := "c", modified := 3, sortindex := some 2, ttl := none,
          payload := true } boolCodec keyBundle0 [1, 2]).bind
      (fun enc => enc.decrypt boolCodec keyBundle0) =
      .ok { id := "r1", collection := "c", modified := 3, sortindex := some 2, ttl := none,
            payload := true } :=
  c4_encrypt_decrypt_roundtrip boolCodec (fun t => by cases t <;> rfl) keyBundle0 [1, 2]
    { id := "r1", collection := "c", modified := 3, sortindex := some 2, ttl := none,
      payload := true }

/-! ## Claim C3: vclock monotonicity of same-client writes -/

/-- The vclock stored for the visible row of a guid, if any: what
`get_vclock` returns on success. -/
def visibleVClock (s : DbState) (id : String) : Option VClock :=
  (getVClock s id).toOption

/-- The reachable-state invariant of the store as driven by db.rs: the
change counter is nonnegative; every overlay row is undeleted (delete, the
only writer of tombstones, never commits because its tombstone INSERT is
rejected); this client's entry in every stored vclock is bounded by the
change counter; and mirror guids are unique (rec_mirror primary key). -/
def StoreInv (db : RemergeDb) (s : DbState) : Prop :=
  0 ≤ s.changeCounter ∧
  (∀ r ∈ s.rec_local, r.is_deleted = false) ∧
  (∀ r ∈ s.rec_local, (r.vector_clock.get db.client_id : Int) ≤ s.changeCounter) ∧
  (∀ m ∈ s.rec_mirror, (m.vector_clock.get db.client_id : Int) ≤ s.changeCounter) ∧
  (s.rec_mirror.map (fun m => m.guid)).Nodup

/-- Finding a key other than the removed one is unaffected by the removal
filter of `VClock.apply`. -/
theorem find?_filter_ne (l : List (String × Nat)) (id k : String) (h : k ≠ id) :
    (l.filter (fun p => !(p.1 == id))).find? (fun p => p.1 == k) =
      l.find? (fun p => p.1 == k) := by
  induction l with
  | nil => rfl
  | cons a t ih =>
    by_cases ha : a.1 = id
    · have hfilter : (!(a.1 == id)) = false := by simp [ha]
      have hak : (a.1 == k) = false := by
        rw [beq_eq_false_iff_ne, ha]
        exact fun hh => h hh.symm
      rw [List.filter_cons_of_neg (by rw [hfilter]; exact Bool.false_ne_true),
        List.find?_cons_of_neg t (by rw [hak]; exact Bool.false_ne_true), ih]
    · have hfilter : (fun q : String × Nat => !(q.1 == id)) a = true := by simp [ha]
      rw [@List.filter_cons_of_pos _ (fun q : String × Nat => !(q.1 == id)) a t hfilter]
      cases hak : (a.1 == k) with
      | true =>
        rw [@List.find?_cons_of_pos _ (fun p : String × Nat => p.1 == k) a
            (List.filter (fun p : String × Nat => !(p.1 == id)) t) hak,
          @List.find?_cons_of_pos _ (fun p : String × Nat => p.1 == k) a t hak]
      | false =>
        rw [List.find?_cons_of_neg _ (by rw [hak]; exact Bool.false_ne_true),
          List.find?_cons_of_neg _ (by rw [hak]; exact Bool.false_ne_true), ih]

/-- The applied entry reads back as the applied counter. -/
theorem VClock.get_apply_self (vc : VClock) (id : String) (n : Nat) :
    (vc.apply id n).get id = n := by
  unfold VClock.apply VClock.get
  rw [List.find?_cons_of_pos _ (by simp)]

/-- Entries other than the applied one are unchanged by apply. -/
theorem VClock.get_apply_ne (vc : VClock) (id k : String) (n : Nat) (h : k ≠ id) :
    (vc.apply id n).get k = vc.get k := by
  unfold VClock.apply VClock.get
  have hid : ((id, n).1 == k) = false := by
    rw [beq_eq_false_iff_ne]
    exact fun hh => h hh.symm
  rw [List.find?_cons_of_neg _ (by rw [hid]; exact Bool.false_ne_true)]
  rw [find?_filter_ne vc.entries id k h]

/-- The boolean pointwise order gives the pointwise bound on every key,
including keys without an entry on the left. -/
theorem VClock.le_get (a b : VClock) (h : a.le b = true) (k : String) : a.get k ≤ b.get k := by
  unfold VClock.le at h
  rw [List.all_eq_true] at h
  cases hf : a.entries.find? (fun p => p.1 == k) with
  | none =>
    have hz : a.get k = 0 := by
      unfold VClock.get
      rw [hf]
    omega
  | some p =>
    have hmem := List.mem_of_find?_eq_some hf
    have hpk := List.find?_some hf
    rw [beq_iff_eq] at hpk
    have hle := h p hmem
    rw [decide_eq_true_iff] at hle
    rwa [hpk] at hle

/-- Applying a strictly larger counter for a key yields a strictly greater
vclock under compare. -/
theorem VClock.compare_lt_apply (vc : VClock) (id : String) (n : Nat) (h : vc.get id < n) :
    VClock.compare vc (vc.apply id n) = .Less := by
  have hle : vc.le (vc.apply id n) = true := by
    unfold VClock.le
    rw [List.all_eq_true]
    intro p _
    rw [decide_eq_true_iff]
    by_cases hk : p.1 = id
    · rw [hk, VClock.get_apply_self]
      omega
    · rw [VClock.get_apply_ne vc id p.1 n hk]
  have hnle : (vc.apply id n).le vc = false := by
    unfold VClock.le
    rw [Bool.eq_false_iff]
    intro hall
    rw [List.all_eq_true] at hall
    have hmem : (id, n) ∈ (vc.apply id n).entries := by
      unfold VClock.apply
      exact List.mem_cons_self _ _
    have hd := hall (id, n) hmem
    rw [decide_eq_true_iff] at hd
    have hd2 : (vc.apply id n).get id ≤ vc.get id := hd
    rw [VClock.get_apply_self vc id n] at hd2
    omega
  unfold VClock.compare
  rw [hle, hnle]

/-- Strict vclock dominance is transitive. -/
theorem VClock.compare_less_trans (a b c : VClock)
    (hab : VClock.compare a b = .Less) (hbc : VClock.compare b c = .Less) :
    VClock.compare a c = .Less := by
  unfold VClock.compare at hab hbc
  have hab1 : a.le b = true := by
    cases h1 : a.le b <;> cases h2 : b.le a <;> rw [h1, h2] at hab <;> simp_all
  have hab2 : b.le a = false := by
    cases h1 : a.le b <;> cases h2 : b.le a <;> rw [h1, h2] at hab <;> simp_all
  have hbc1 : b.le c = true := by
    cases h1 : b.le c <;> cases h2 : c.le b <;> rw [h1, h2] at hbc <;> simp_all
  have hac1 : a.le c = true := by
    unfold VClock.le
    rw [List.all_eq_true]
    intro p _
    rw [decide_eq_true_iff]
    exact le_trans (VClock.le_get a b hab1 p.1) (VClock.le_get b c hbc1 p.1)
  have hac2 : c.le a = false := by
    rw [Bool.eq_false_iff]
    intro hca
    have hba : b.le a = true := by
      unfold VClock.le
      rw [List.all_eq_true]
      intro p _
      rw [decide_eq_true_iff]
      exact le_trans (VClock.le_get b c hbc1 p.1) (VClock.le_get c a hca p.1)
    rw [hab2] at hba
    exact Bool.false_ne_true hba
  unfold VClock.compare
  rw [hac1, hac2]

/-- A search in a concatenation whose first part has no hit continues in
the second part. -/
theorem find?_append_of_none {α : Type} (p : α → Bool) (l1 l2 : List α)
    (h : l1.find? p = none) : (l1 ++ l2).find? p = l2.find? p := by
  induction l1 with
  | nil => rfl
  | cons a t ih =>
    cases hpa : p a with
    | true => rw [List.find?_cons_of_pos _ hpa] at h; exact absurd h (by simp)
    | false =>
      have hneg : ¬p a = true := by rw [hpa]; exact Bool.false_ne_true
      rw [List.find?_cons_of_neg _ hneg] at h
      rw [List.cons_append, List.find?_cons_of_neg _ hneg]
      exact ih h

/-- A search through a mapped list, when the map does not change the
predicate, finds the image of what the plain search finds. -/
theorem find?_map_invariant {α : Type} (f : α → α) (p : α → Bool) (l : List α)
    (h : ∀ x, p (f x) = p x) : (l.map f).find? p = (l.find? p).map f := by
  induction l with
  | nil => rfl
  | cons a t ih =>
    cases hpa : p a with
    | true =>
      rw [List.map_cons, List.find?_cons_of_pos _ (by rw [h a]; exact hpa),
        List.find?_cons_of_pos _ hpa]
      rfl
    | false =>
      have hneg : ¬p a = true := by rw [hpa]; exact Bool.false_ne_true
      rw [List.map_cons, List.find?_cons_of_neg _ (by rw [h a]; exact hpa ▸ hneg),
        List.find?_cons_of_neg _ hneg, ih]

theorem transact_ok_inv {α : Type} (s : DbState)
    (body : DbState → Except RemergeError (α × DbState)) (a : α) (s1 : DbState)
    (h : transact s body = (.ok a, s1)) : body s = .ok (a, s1) := by
  unfold transact at h
  cases hb : body s with
  | error e => rw [hb] at h; simp at h
  | ok p =>
    obtain ⟨p1, p2⟩ := p
    rw [hb] at h
    simp at h
    rw [h.1, h.2]


/-- The overlay row that a successful create writes. -/
def createdRow (db : RemergeDb) (native : NativeRecord) (now : Int) (ctr : Nat) : LocalRow :=
  { guid := native.id
    record_data := some native
    vector_clock := VClock.new db.client_id ctr
    last_writer_id := db.client_id
    local_modified_ms := now
    is_deleted := false
    sync_status := syncStatusNew
    remerge_schema_version := some db.schema_version }

/-- Inverting a successful counter bump. -/
theorem counterBump_ok_inv (s : DbState) (c : Nat) (s1 : DbState)
    (h : counterBump s = .ok (c, s1)) :
    0 ≤ s.changeCounter ∧ c = (s.changeCounter + 1).toNat ∧
      s1 = { s with changeCounter := s.changeCounter + 1 } := by
  unfold counterBump at h
  split at h
  · simp at h
  · split at h
    · simp at h
    · next hneg _ =>
      simp only [Except.ok.injEq, Prod.mk.injEq] at h
      exact ⟨by omega, h.1.symm, h.2.symm⟩

/-- Inverting a successful overlay insert. -/
theorem insertLocalRow_ok_inv (s : DbState) (row : LocalRow) (s2 : DbState)
    (h : insertLocalRow s row = .ok s2) :
    s.rec_local.any (fun r => r.guid == row.guid) = false ∧
      s2 = { s with rec_local := s.rec_local ++ [row] } := by
  unfold insertLocalRow at h
  split at h
  · simp at h
  · next hany =>
    simp only [Except.ok.injEq] at h
    exact ⟨Bool.eq_false_iff.mpr hany, h.symm⟩

theorem create_ok_inv (db : RemergeDb) (native : NativeRecord) (now : Int) (s : DbState)
    (g : String) (s1 : DbState) (h : db.create native now s = (.ok g, s1)) :
    recExists s native.id = false ∧ 0 ≤ s.changeCounter ∧
    s.rec_local.any (fun r => r.guid == native.id) = false ∧
    g = native.id ∧
    s1 = { s with
      changeCounter := s.changeCounter + 1,
      rec_local := s.rec_local ++ [createdRow db native now ((s.changeCounter + 1).toNat)] } := by
  unfold RemergeDb.create at h
  have hbody := transact_ok_inv _ _ _ _ h
  simp only [dupeExists] at hbody
  split at hbody
  · simp at hbody
  · next hex =>
    split at hbody
    · simp at hbody
    · next ctr s1A hbump =>
      split at hbody
      · simp at hbody
      · next s2 hins =>
        simp only [Except.ok.injEq, Prod.mk.injEq] at hbody
        obtain ⟨hg, hs2⟩ := hbody
        obtain ⟨hc0, hcval, hsval⟩ := counterBump_ok_inv s ctr s1A hbump
        subst hsval
        obtain ⟨hany, hinsval⟩ := insertLocalRow_ok_inv _ _ _ hins
        subst hinsval
        subst hcval
        refine ⟨Bool.eq_false_iff.mpr hex, hc0, hany, hg.symm, ?_⟩
        rw [hs2.symm]
        rfl

theorem ensureLocalOverlayExists_ok_inv (s : DbState) (g : String) (s1 : DbState)
    (h : ensureLocalOverlayExists s g = .ok s1) :
    (s.rec_local.any (fun r => r.guid == g) = true ∧ s1 = s) ∨
    (s.rec_local.any (fun r => r.guid == g) = false ∧
      ∃ m, s.rec_mirror.find? (fun r => r.guid == g) = some m ∧
        s1 = { s with rec_local := s.rec_local ++ [cloneRow m] }) := by
  unfold ensureLocalOverlayExists at h
  split at h
  · next hany =>
    simp only [Except.ok.injEq] at h
    exact Or.inl ⟨hany, h.symm⟩
  · next hany =>
    split at h
    · simp at h
    · next m hm =>
      simp only [Except.ok.injEq] at h
      exact Or.inr ⟨Bool.eq_false_iff.mpr hany, m, hm, h.symm⟩

theorem getBumpedVClock_ok_inv (db : RemergeDb) (s : DbState) (id : String) (vc : VClock)
    (s1 : DbState) (h : getBumpedVClock db s id = .ok (vc, s1)) :
    ∃ vc0, getVClock s id = .ok vc0 ∧
      vc = vc0.apply db.client_id ((s.changeCounter + 1).toNat) ∧
      0 ≤ s.changeCounter ∧ s1 = { s with changeCounter := s.changeCounter + 1 } := by
  unfold getBumpedVClock at h
  split at h
  · simp at h
  · next vc0 hvc =>
    split at h
    · simp at h
    · next ctr s1A hbump =>
      simp only [Except.ok.injEq, Prod.mk.injEq] at h
      obtain ⟨hc0, hcval, hsval⟩ := counterBump_ok_inv s ctr s1A hbump
      refine ⟨vc0, hvc, ?_, hc0, ?_⟩
      · rw [← h.1, hcval]
      · rw [← h.2, hsval]

theorem update_ok_inv (db : RemergeDb) (native : NativeRecord) (now : Int) (s : DbState)
    (s1 : DbState) (h : db.updateRecord native now s = (.ok (), s1)) :
    ∃ sA vc0,
      ensureLocalOverlayExists s native.id = .ok sA ∧
      getVClock (markMirrorOverridden sA native.id) native.id = .ok vc0 ∧
      0 ≤ sA.changeCounter ∧
      s1 = updateLocalFromRecord db
        { markMirrorOverridden sA native.id with changeCounter := sA.changeCounter + 1 }
        native.id (some native)
        (vc0.apply db.client_id ((sA.changeCounter + 1).toNat)) now := by
  unfold RemergeDb.updateRecord at h
  have hbody := transact_ok_inv _ _ _ _ h
  simp only [dupeExists] at hbody
  split at hbody
  · simp at hbody
  · next sA hens =>
    split at hbody
    · simp at hbody
    · next vc s3 hgbv =>
      simp only [Except.ok.injEq, Prod.mk.injEq] at hbody
      obtain ⟨vc0, hvc, hvcval, hc0, hs3⟩ := getBumpedVClock_ok_inv db _ native.id vc s3 hgbv
      refine ⟨sA, vc0, hens, hvc, hc0, ?_⟩
      rw [← hbody.2, hvcval, hs3]
      rfl

theorem delete_ok_inv (db : RemergeDb) (id : String) (now : Int) (s : DbState) (b : Bool)
    (s1 : DbState) (h : db.deleteById id now s = (.ok b, s1)) :
    b = false ∧ s1 = s := by
  unfold RemergeDb.deleteById at h
  have hbody := transact_ok_inv _ _ _ _ h
  simp only [tombstoneInsertStmt] at hbody
  split at hbody
  · simp only [Except.ok.injEq, Prod.mk.injEq] at hbody
    exact ⟨hbody.1.symm, hbody.2.symm⟩
  · split at hbody
    · simp at hbody
    · simp at hbody

theorem VClock.get_new_self (id : String) (n : Nat) : (VClock.new id n).get id = n := by
  unfold VClock.new VClock.get
  rw [List.find?_cons_of_pos _ (by simp)]

theorem storeInv_create (db : RemergeDb) (native : NativeRecord) (now : Int) (s : DbState)
    (g : String) (s1 : DbState) (hInv : StoreInv db s)
    (h : db.create native now s = (.ok g, s1)) : StoreInv db s1 := by
  obtain ⟨hc, hdel, hlb, hmb, hnd⟩ := hInv
  obtain ⟨hex, hc0, hany, hg, hs1⟩ := create_ok_inv db native now s g s1 h
  subst hs1
  refine ⟨?_, ?_, ?_, ?_, ?_⟩
  · show 0 ≤ s.changeCounter + 1
    omega
  · intro r hr
    simp only [List.mem_append, List.mem_singleton] at hr
    rcases hr with hr | hr
    · exact hdel r hr
    · subst hr
      rfl
  · intro r hr
    simp only [List.mem_append, List.mem_singleton] at hr
    show (r.vector_clock.get db.client_id : Int) ≤ s.changeCounter + 1
    rcases hr with hr | hr
    · have hb := hlb r hr
      omega
    · subst hr
      have hv : (createdRow db native now ((s.changeCounter + 1).toNat)).vector_clock =
          VClock.new db.client_id ((s.changeCounter + 1).toNat) := rfl
      rw [hv, VClock.get_new_self, Int.toNat_of_nonneg (by omega)]
  · intro m hm
    have hb := hmb m hm
    show (m.vector_clock.get db.client_id : Int) ≤ s.changeCounter + 1
    omega
  · exact hnd

theorem storeInv_delete (db : RemergeDb) (id : String) (now : Int) (s : DbState)
    (b : Bool) (s1 : DbState) (hInv : StoreInv db s)
    (h : db.deleteById id now s = (.ok b, s1)) : StoreInv db s1 := by
  obtain ⟨-, hs1⟩ := delete_ok_inv db id now s b s1 h
  subst hs1
  exact hInv

theorem create_stores_new_vclock (db : RemergeDb) (native : NativeRecord) (now : Int)
    (s : DbState) (g : String) (s1 : DbState)
    (h : db.create native now s = (.ok g, s1)) :
    visibleVClock s1 native.id =
      some (VClock.new db.client_id ((s.changeCounter + 1).toNat)) := by
  obtain ⟨hex, hc0, hany, hg, hs1⟩ := create_ok_inv db native now s g s1 h
  subst hs1
  unfold visibleVClock getVClock
  have hnone : s.rec_local.find? (fun r => r.guid == native.id && !r.is_deleted) = none := by
    rw [List.find?_eq_none]
    intro x hx hp
    rw [Bool.and_eq_true] at hp
    unfold recExists at hex
    rw [Bool.or_eq_false_iff] at hex
    have hxany := List.any_eq_false.mp hex.1 x hx
    exact hxany (by rw [Bool.and_eq_true]; exact hp)
  have hlocal : ({ s with
      changeCounter := s.changeCounter + 1,
      rec_local := s.rec_local ++ [createdRow db native now ((s.changeCounter + 1).toNat)] } :
        DbState).rec_local =
      s.rec_local ++ [createdRow db native now ((s.changeCounter + 1).toNat)] := rfl
  rw [hlocal, find?_append_of_none _ _ _ hnone]
  rw [List.find?_cons_of_pos _ (by simp [createdRow])]
  rfl

theorem markMirrorOverridden_rec_local (s : DbState) (id : String) :
    (markMirrorOverridden s id).rec_local = s.rec_local := rfl

theorem markMirrorOverridden_changeCounter (s : DbState) (id : String) :
    (markMirrorOverridden s id).changeCounter = s.changeCounter := rfl

theorem markMirrorOverridden_rec_mirror (s : DbState) (id : String) :
    (markMirrorOverridden s id).rec_mirror = s.rec_mirror.map (overriddenMirrorRow id) := rfl

theorem updateLocalFromRecord_rec_local (db : RemergeDb) (s : DbState) (guid : String)
    (record : RecordData) (vclock : VClock) (now : Int) :
    (updateLocalFromRecord db s guid record vclock now).rec_local =
      s.rec_local.map (updatedLocalRow db guid record vclock now) := rfl

theorem updateLocalFromRecord_rec_mirror (db : RemergeDb) (s : DbState) (guid : String)
    (record : RecordData) (vclock : VClock) (now : Int) :
    (updateLocalFromRecord db s guid record vclock now).rec_mirror = s.rec_mirror := rfl

theorem updateLocalFromRecord_changeCounter (db : RemergeDb) (s : DbState) (guid : String)
    (record : RecordData) (vclock : VClock) (now : Int) :
    (updateLocalFromRecord db s guid record vclock now).changeCounter = s.changeCounter := rfl

theorem updatedLocalRow_guid (db : RemergeDb) (g : String) (record : RecordData) (vc : VClock)
    (now : Int) (r : LocalRow) : (updatedLocalRow db g record vc now r).guid = r.guid := by
  unfold updatedLocalRow
  split <;> rfl

theorem updatedLocalRow_is_deleted (db : RemergeDb) (g : String) (record : RecordData)
    (vc : VClock) (now : Int) (r : LocalRow) :
    (updatedLocalRow db g record vc now r).is_deleted = r.is_deleted := by
  unfold updatedLocalRow
  split <;> rfl

theorem updatedLocalRow_vclock_of_guid (db : RemergeDb) (g : String) (record : RecordData)
    (vc : VClock) (now : Int) (r : LocalRow) (h : (r.guid == g) = true) :
    (updatedLocalRow db g record vc now r).vector_clock = vc := by
  unfold updatedLocalRow
  rw [if_pos h]

theorem updatedLocalRow_pred (db : RemergeDb) (g : String) (record : RecordData) (vc : VClock)
    (now : Int) (x : LocalRow) :
    ((updatedLocalRow db g record vc now x).guid == g &&
        !(updatedLocalRow db g record vc now x).is_deleted) =
      (x.guid == g && !x.is_deleted) := by
  rw [updatedLocalRow_guid, updatedLocalRow_is_deleted]

theorem overriddenMirrorRow_guid (id : String) (r : MirrorRow) :
    (overriddenMirrorRow id r).guid = r.guid := by
  unfold overriddenMirrorRow
  split <;> rfl

theorem overriddenMirrorRow_vclock (id : String) (r : MirrorRow) :
    (overriddenMirrorRow id r).vector_clock = r.vector_clock := by
  unfold overriddenMirrorRow
  split <;> rfl

theorem getVClock_of_find?_local (s : DbState) (g : String) (r : LocalRow)
    (hf : s.rec_local.find? (fun r => r.guid == g && !r.is_deleted) = some r) :
    getVClock s g = .ok r.vector_clock := by
  unfold getVClock
  rw [hf]

theorem getVClock_of_find?_mirror (s : DbState) (g : String) (m : MirrorRow)
    (hnone : s.rec_local.find? (fun r => r.guid == g && !r.is_deleted) = none)
    (hm : s.rec_mirror.find? (fun r => r.guid == g && !(r.is_overridden == some 1)) = some m) :
    getVClock s g = .ok m.vector_clock := by
  unfold getVClock
  rw [hnone, hm]

/-- Common core of invariant preservation by a successful update: the
overlay state after materialization already satisfies the row bounds, and
the written vclock carries the fresh counter for this client. -/
theorem storeInv_update_aux (db : RemergeDb) (s sA : DbState) (g : String) (record : RecordData)
    (vcNew : VClock) (now : Int)
    (hcounter : sA.changeCounter = s.changeCounter)
    (hmirror : sA.rec_mirror = s.rec_mirror)
    (hc : 0 ≤ s.changeCounter)
    (hdelA : ∀ r ∈ sA.rec_local, r.is_deleted = false)
    (hlbA : ∀ r ∈ sA.rec_local, (r.vector_clock.get db.client_id : Int) ≤ s.changeCounter)
    (hmb : ∀ m ∈ s.rec_mirror, (m.vector_clock.get db.client_id : Int) ≤ s.changeCounter)
    (hnd : (s.rec_mirror.map (fun m => m.guid)).Nodup)
    (hget : vcNew.get db.client_id = (s.changeCounter + 1).toNat) :
    StoreInv db (updateLocalFromRecord db
      { markMirrorOverridden sA g with changeCounter := sA.changeCounter + 1 }
      g record vcNew now) := by
  refine ⟨?_, ?_, ?_, ?_, ?_⟩
  · rw [updateLocalFromRecord_changeCounter]
    show 0 ≤ sA.changeCounter + 1
    omega
  · intro r hr
    rw [updateLocalFromRecord_rec_local] at hr
    obtain ⟨x, hx, hxr⟩ := List.mem_map.mp hr
    have hxA : x ∈ sA.rec_local := hx
    rw [← hxr, updatedLocalRow_is_deleted]
    exact hdelA x hxA
  · intro r hr
    rw [updateLocalFromRecord_rec_local] at hr
    obtain ⟨x, hx, hxr⟩ := List.mem_map.mp hr
    have hxA : x ∈ sA.rec_local := hx
    rw [updateLocalFromRecord_changeCounter]
    show (r.vector_clock.get db.client_id : Int) ≤ sA.changeCounter + 1
    rw [hcounter]
    subst hxr
    by_cases hxg : (x.guid == g) = true
    · rw [updatedLocalRow_vclock_of_guid db g record vcNew now x hxg, hget,
        Int.toNat_of_nonneg (by omega)]
    · unfold updatedLocalRow
      rw [if_neg hxg]
      have := hlbA x hxA
      omega
  · intro m hm
    rw [updateLocalFromRecord_rec_mirror] at hm
    have hm2 : m ∈ (markMirrorOverridden sA g).rec_mirror := hm
    rw [markMirrorOverridden_rec_mirror, hmirror] at hm2
    obtain ⟨x, hx, hxm⟩ := List.mem_map.mp hm2
    rw [updateLocalFromRecord_changeCounter]
    show (m.vector_clock.get db.client_id : Int) ≤ sA.changeCounter + 1
    rw [hcounter]
    rw [← hxm, overriddenMirrorRow_vclock]
    have := hmb x hx
    omega
  · rw [updateLocalFromRecord_rec_mirror]
    have hguids : ((markMirrorOverridden sA g).rec_mirror.map (fun m => m.guid)) =
        s.rec_mirror.map (fun m => m.guid) := by
      rw [markMirrorOverridden_rec_mirror, hmirror, List.map_map]
      exact List.map_congr_left (fun a _ => overriddenMirrorRow_guid g a)
    show ((updateLocalFromRecord db
        { markMirrorOverridden sA g with changeCounter := sA.changeCounter + 1 }
        g record vcNew now).rec_mirror.map (fun m => m.guid)).Nodup
    rw [updateLocalFromRecord_rec_mirror]
    show (((markMirrorOverridden sA g).rec_mirror).map (fun m => m.guid)).Nodup
    rw [hguids]
    exact hnd

theorem storeInv_update (db : RemergeDb) (native : NativeRecord) (now : Int) (s : DbState)
    (s1 : DbState) (hInv : StoreInv db s)
    (h : db.updateRecord native now s = (.ok (), s1)) : StoreInv db s1 := by
  obtain ⟨hc, hdel, hlb, hmb, hnd⟩ := hInv
  obtain ⟨sA, vc0, hens, hvc, hcA, hs1⟩ := update_ok_inv db native now s s1 h
  subst hs1
  rcases ensureLocalOverlayExists_ok_inv s native.id sA hens with
    ⟨hanyT, hsA⟩ | ⟨hanyF, m, hm, hsA⟩
  · rw [hsA] at hvc ⊢
    exact storeInv_update_aux db s s native.id (some native) _ now rfl rfl hc hdel hlb hmb hnd
      (VClock.get_apply_self vc0 db.client_id _)
  · subst hsA
    refine storeInv_update_aux db s _ native.id (some native) _ now rfl rfl hc ?_ ?_ hmb hnd
      (VClock.get_apply_self vc0 db.client_id _)
    · intro r hr
      rcases List.mem_append.mp hr with hr2 | hr2
      · exact hdel r hr2
      · rw [List.mem_singleton] at hr2
        subst hr2
        rfl
    · intro r hr
      rcases List.mem_append.mp hr with hr2 | hr2
      · exact hlb r hr2
      · rw [List.mem_singleton] at hr2
        subst hr2
        exact hmb m (List.mem_of_find?_eq_some hm)

/-- After a successful update writes `vcNew` into the matched overlay row,
that row is the visible one and carries exactly `vcNew`. -/
theorem visibleVClock_after_update (db : RemergeDb) (sA : DbState) (g : String)
    (record : RecordData) (vcNew : VClock) (now : Int) (c : Int) (r : LocalRow)
    (hf : sA.rec_local.find? (fun x => x.guid == g && !x.is_deleted) = some r)
    (hrg : (r.guid == g) = true) :
    visibleVClock (updateLocalFromRecord db
      { markMirrorOverridden sA g with changeCounter := c } g record vcNew now) g =
      some vcNew := by
  unfold visibleVClock
  have hfind : (updateLocalFromRecord db { markMirrorOverridden sA g with changeCounter := c }
      g record vcNew now).rec_local.find? (fun x => x.guid == g && !x.is_deleted) =
      some (updatedLocalRow db g record vcNew now r) := by
    rw [updateLocalFromRecord_rec_local]
    have hrl : ({ markMirrorOverridden sA g with changeCounter := c } : DbState).rec_local =
        sA.rec_local := rfl
    rw [hrl, find?_map_invariant _ _ _ (updatedLocalRow_pred db g record vcNew now), hf]
    rfl
  rw [getVClock_of_find?_local _ _ _ hfind]
  rw [updatedLocalRow_vclock_of_guid db g record vcNew now r hrg]
  rfl

theorem update_bumps_vclock (db : RemergeDb) (native : NativeRecord) (now : Int) (s : DbState)
    (s1 : DbState) (vc1 : VClock) (hInv : StoreInv db s)
    (h : db.updateRecord native now s = (.ok (), s1))
    (hv : visibleVClock s native.id = some vc1) :
    visibleVClock s1 native.id =
      some (vc1.apply db.client_id ((s.changeCounter + 1).toNat)) ∧
    VClock.compare vc1 (vc1.apply db.client_id ((s.changeCounter + 1).toNat)) = .Less := by
  obtain ⟨hc, hdel, hlb, hmb, hnd⟩ := hInv
  obtain ⟨sA, vc0, hens, hvc, hcA, hs1⟩ := update_ok_inv db native now s s1 h
  subst hs1
  rcases ensureLocalOverlayExists_ok_inv s native.id sA hens with
    ⟨hanyT, hsA⟩ | ⟨hanyF, m, hm, hsA⟩
  · rw [hsA] at hvc hcA ⊢
    obtain ⟨x, hx, hxg⟩ := List.any_eq_true.mp hanyT
    have hpredx : (x.guid == native.id && !x.is_deleted) = true := by
      rw [Bool.and_eq_true]
      refine ⟨hxg, ?_⟩
      rw [hdel x hx]
      rfl
    cases hf : s.rec_local.find? (fun r => r.guid == native.id && !r.is_deleted) with
    | none => exact absurd hpredx (List.find?_eq_none.mp hf x hx)
    | some r0 =>
      have hvis : visibleVClock s native.id = some r0.vector_clock := by
        unfold visibleVClock
        rw [getVClock_of_find?_local s native.id r0 hf]
        rfl
      rw [hvis] at hv
      have hvc1 : r0.vector_clock = vc1 := Option.some.inj hv
      have hfm : (markMirrorOverridden s native.id).rec_local.find?
          (fun r => r.guid == native.id && !r.is_deleted) = some r0 := by
        rw [markMirrorOverridden_rec_local]
        exact hf
      have hvc0 : vc0 = r0.vector_clock := by
        have h2 := getVClock_of_find?_local _ native.id r0 hfm
        rw [h2] at hvc
        exact (Except.ok.inj hvc).symm
      have hr0g : (r0.guid == native.id) = true := by
        have hp := List.find?_some hf
        rw [Bool.and_eq_true] at hp
        exact hp.1
      have hb : (vc1.get db.client_id : Int) ≤ s.changeCounter := by
        rw [← hvc1]
        exact hlb r0 (List.mem_of_find?_eq_some hf)
      have hlt : vc1.get db.client_id < (s.changeCounter + 1).toNat := by omega
      constructor
      · have hshow := visibleVClock_after_update db s native.id (some native)
          (vc0.apply db.client_id ((s.changeCounter + 1).toNat)) now
          (s.changeCounter + 1) r0 hf hr0g
        rw [hshow, hvc0, hvc1]
      · exact VClock.compare_lt_apply vc1 db.client_id _ hlt
  · subst hsA
    have hnone : s.rec_local.find? (fun r => r.guid == native.id && !r.is_deleted) = none := by
      rw [List.find?_eq_none]
      intro x hx hp
      rw [Bool.and_eq_true] at hp
      exact (List.any_eq_false.mp hanyF x hx) hp.1
    have hmg : (m.guid == native.id) = true :=
      @List.find?_some _ (fun r : MirrorRow => r.guid == native.id) m s.rec_mirror hm
    have hclonepred : ((cloneRow m).guid == native.id && !(cloneRow m).is_deleted) = true := by
      rw [Bool.and_eq_true]
      exact ⟨hmg, rfl⟩
    have hfA : ({ s with rec_local := s.rec_local ++ [cloneRow m] } :
        DbState).rec_local.find? (fun r => r.guid == native.id && !r.is_deleted) =
        some (cloneRow m) := by
      show (s.rec_local ++ [cloneRow m]).find? (fun r => r.guid == native.id && !r.is_deleted) =
        some (cloneRow m)
      rw [find?_append_of_none _ _ _ hnone]
      exact List.find?_cons_of_pos _ hclonepred
    -- identify vc1 with the mirror row's vclock
    cases hfmir : s.rec_mirror.find?
        (fun r => r.guid == native.id && !(r.is_overridden == some 1)) with
    | none =>
      have hvis : visibleVClock s native.id = none := by
        unfold visibleVClock getVClock
        rw [hnone, hfmir]
        rfl
      rw [hvis] at hv
      exact absurd hv (by simp)
    | some mm =>
      have hvis : visibleVClock s native.id = some mm.vector_clock := by
        unfold visibleVClock
        rw [getVClock_of_find?_mirror s native.id mm hnone hfmir]
        rfl
      rw [hvis] at hv
      have hvc1 : mm.vector_clock = vc1 := Option.some.inj hv
      have hmmem : mm ∈ s.rec_mirror := List.mem_of_find?_eq_some hfmir
      have hmmem2 : m ∈ s.rec_mirror := List.mem_of_find?_eq_some hm
      have hmmg : (mm.guid == native.id) = true := by
        have hp := List.find?_some hfmir
        rw [Bool.and_eq_true] at hp
        exact hp.1
      have hmeq : mm = m := by
        apply List.inj_on_of_nodup_map hnd hmmem hmmem2
        rw [beq_iff_eq] at hmmg hmg
        rw [hmmg, hmg]
      have hvc0 : vc0 = m.vector_clock := by
        have hfm2 : (markMirrorOverridden { s with rec_local := s.rec_local ++ [cloneRow m] }
            native.id).rec_local.find? (fun r => r.guid == native.id && !r.is_deleted) =
            some (cloneRow m) := by
          rw [markMirrorOverridden_rec_local]
          exact hfA
        have h2 := getVClock_of_find?_local _ native.id (cloneRow m) hfm2
        rw [h2] at hvc
        exact (Except.ok.inj hvc).symm
      have hb : (vc1.get db.client_id : Int) ≤ s.changeCounter := by
        rw [← hvc1, hmeq]
        exact hmb m hmmem2
      have hlt : vc1.get db.client_id < (s.changeCounter + 1).toNat := by omega
      constructor
      · have hshow := visibleVClock_after_update db
          { s with rec_local := s.rec_local ++ [cloneRow m] } native.id (some native)
          (vc0.apply db.client_id ((s.changeCounter + 1).toNat)) now
          (s.changeCounter + 1) (cloneRow m) hfA hmg
        rw [hshow, hvc0, ← hmeq, hvc1]
      · exact VClock.compare_lt_apply vc1 db.client_id _ hlt

/-- The overlay row produced by the successful concrete update of the
witness. -/
def updatedRowG : LocalRow :=
  { guid := "g", record_data := some { id := "g", data := "z" },
    vector_clock := ⟨[("C1", 4), ("C2", 5)]⟩, last_writer_id := "C1",
    local_modified_ms := 11, is_deleted := false, sync_status := 1,
    remerge_schema_version := some "1.0.0" }

/-- The state produced by the successful concrete update of the witness. -/
def updatedMirrorState : DbState :=
  { rec_local := [updatedRowG],
    rec_mirror := [{ mirrorRowG with is_overridden := some 1 }],
    changeCounter := 4 }

/-- Claim C3: writes by the same client on the same record store strictly
increasing vector clocks.  The handle's client is fixed, and the writes
that commit a vclock are create (the record's first write) and
update_record (every later one); a successful delete_by_id call never
stores anything, because its only success path is the not-found early
return that leaves the state unchanged (third conjunct), so it
contributes no write.  The vclock a write stores is the one that
get_vclock then sees (visibleVClock).  The conjuncts: the reachable-state
invariant is preserved by all three mutators; create stores the fresh
single-entry clock of the bumped counter; an update on a record whose
stored vclock is vc1 stores exactly vc1 bumped at this client with the
fresh counter, which compares strictly Less; and Less is transitive, so
the property extends from consecutive writes W1, W2 to arbitrary
same-record write pairs of one client. -/
theorem c3_same_client_writes_increase (db : RemergeDb) (s : DbState)
    (hInv : StoreInv db s) :
    (∀ native now g s1, db.create native now s = (.ok g, s1) → StoreInv db s1) ∧
    (∀ native now s1, db.updateRecord native now s = (.ok (), s1) → StoreInv db s1) ∧
    (∀ id now b s1, db.deleteById id now s = (.ok b, s1) → StoreInv db s1 ∧ s1 = s) ∧
    (∀ native now g s1, db.create native now s = (.ok g, s1) →
      visibleVClock s1 native.id =
        some (VClock.new db.client_id ((s.changeCounter + 1).toNat))) ∧
    (∀ native now s1 vc1, db.updateRecord native now s = (.ok (), s1) →
      visibleVClock s native.id = some vc1 →
      visibleVClock s1 native.id =
        some (vc1.apply db.client_id ((s.changeCounter + 1).toNat)) ∧
      VClock.compare vc1 (vc1.apply db.client_id ((s.changeCounter + 1).toNat)) = .Less) ∧
    (∀ a b c : VClock, VClock.compare a b = .Less → VClock.compare b c = .Less →
      VClock.compare a c = .Less) := by
  refine ⟨?_, ?_, ?_, ?_, ?_, ?_⟩
  · intro native now g s1 h
    exact storeInv_create db native now s g s1 hInv h
  · intro native now s1 h
    exact storeInv_update db native now s s1 hInv h
  · intro id now b s1 h
    obtain ⟨-, hs⟩ := delete_ok_inv db id now s b s1 h
    exact ⟨hs ▸ hInv, hs⟩
  · intro native now g s1 h
    exact create_stores_new_vclock db native now s g s1 h
  · intro native now s1 vc1 h hv
    exact update_bumps_vclock db native now s s1 vc1 hInv h hv
  · exact VClock.compare_less_trans

/-- Witness for C3: on the concrete mirror-only store (vclock C2:5,
counter 3), the concrete update stores the strictly greater clock
C1:4, C2:5. -/
theorem c3_same_client_writes_increase_witness :
    visibleVClock updatedMirrorState "g" = some (VClock.apply ⟨[("C2", 5)]⟩ "C1" 4) ∧
    VClock.compare ⟨[("C2", 5)]⟩ (VClock.apply ⟨[("C2", 5)]⟩ "C1" 4) = .Less :=
  (c3_same_client_writes_increase sampleDb mirrorOnlyState
      (by unfold StoreInv; decide)).2.2.2.2.1
    { id := "g", data := "z" } 11 updatedMirrorState ⟨[("C2", 5)]⟩ (by decide) (by decide)
